import Mathlib

/-!
Verification development for the drive-organizer repository.

The definitions below are a shallow embedding of the Python sources:
  * `src/drive_organizer/classifier.py` — the keyword rule classifier
    (`MockClassifier.classify_file`) and the batch driver
    (`FileClassifier.classify_multiple`, which in mock mode delegates each
    file to the keyword classifier).
  * `src/drive_organizer/organizer.py` — the `OrganizationPlan` aggregate
    with `add_result`, `rename_folder`, `remove_file`, and the move logic
    of `move_file_interactive`.
  * `src/drive_organizer/mock_classifier.py` — the alternate regex rule
    classifier whose module-local `ClassificationResult` dataclass lacks a
    `confidence` field.

Python dicts are modelled as insertion-ordered association lists, Python
sets as duplicate-free string lists (membership is what the claims use),
and `str.lower` as character-wise ASCII lowering (all strings in the rule
tables are ASCII).
-/

namespace DriveOrganizer

/-- `classifier.ClassificationResult`: the per-file record produced by the
classifiers in `classifier.py`. -/
structure ClassificationResult where
  file_id : String
  file_name : String
  suggested_folder : String
  is_new_folder : Bool
  confidence : String
  reasoning : String
deriving DecidableEq, Repr, Inhabited

/-- Character-wise lowering, modelling Python `str.lower()` on the ASCII
strings that occur in this program. -/
def pyLower (s : String) : String :=
  String.mk (s.data.map Char.toLower)

/-- Helper for substring containment on character lists. -/
def charListIn (needle : List Char) : List Char → Bool
  | [] => needle.isEmpty
  | c :: rest => needle.isPrefixOf (c :: rest) || charListIn needle rest

/-- Python `needle in hay` on strings (substring containment). -/
def strIn (needle hay : String) : Bool :=
  charListIn needle.data hay.data

/-- `MockClassifier.KEYWORD_RULES` from `classifier.py`: an
insertion-ordered dict of keyword → folder, modelled as a list of pairs in
source order. -/
def KEYWORD_RULES : List (String × String) := [
  ("physics", "Physics Files"),
  ("newton", "Physics Files"),
  ("quantum", "Physics Files"),
  ("thermodynamics", "Physics Files"),
  ("resume", "Resume"),
  ("cv", "Resume"),
  ("cover_letter", "Job Applications"),
  ("cover letter", "Job Applications"),
  ("application", "Job Applications"),
  ("job", "Job Applications"),
  ("receipt", "Financial Records"),
  ("invoice", "Financial Records"),
  ("budget", "Financial Records"),
  ("tax", "Financial Records"),
  ("bank", "Financial Records"),
  ("vacation", "Travel Documents"),
  ("flight", "Travel Documents"),
  ("hotel", "Travel Documents"),
  ("itinerary", "Travel Documents"),
  ("passport", "Travel Documents"),
  ("project", "Projects"),
  ("code", "Projects"),
  ("github", "Projects"),
  ("notes", "Course Notes"),
  ("lecture", "Course Notes"),
  ("homework", "Course Notes"),
  ("assignment", "Course Notes"),
  ("exam", "Course Notes"),
  ("certificate", "Certificates"),
  ("certification", "Certificates"),
  ("diploma", "Certificates"),
  ("photo", "Photos"),
  ("img", "Photos"),
  ("image", "Photos"),
  ("screenshot", "Screenshots")]

/-- `MockClassifier.classify_file` from `classifier.py`: lower-case the
file name, scan the keyword table in order, and on the first hit search
`existing_folders` case-insensitively (reusing the existing casing on a
hit); with no keyword hit fall back to the literal folder `"Miscellaneous"`
whose newness is decided by exact (case-sensitive) membership.
The content snippet is accepted and ignored, as in the source. -/
def classify_file (file_name file_id : String) (existing_folders : List String)
    (file_content_snippet : Option String) : ClassificationResult :=
  let name_lower := pyLower file_name
  match KEYWORD_RULES.find? (fun kv => strIn kv.1 name_lower) with
  | some kv =>
    match existing_folders.find? (fun existing => pyLower existing == pyLower kv.2) with
    | some existing =>
      { file_id := file_id, file_name := file_name,
        suggested_folder := existing, is_new_folder := false,
        confidence := if kv.1.data.isEmpty then "medium" else "high",
        reasoning := "Matched keyword " ++ kv.1 ++ " in filename" }
    | none =>
      { file_id := file_id, file_name := file_name,
        suggested_folder := kv.2, is_new_folder := true,
        confidence := if kv.1.data.isEmpty then "medium" else "high",
        reasoning := "Matched keyword " ++ kv.1 ++ " in filename" }
  | none =>
    { file_id := file_id, file_name := file_name,
      suggested_folder := "Miscellaneous",
      is_new_folder := !(existing_folders.contains "Miscellaneous"),
      confidence := "low",
      reasoning := "No clear category detected from filename" }

/-- A file record handed to `classify_multiple`: a dict with at least
`id` and `name` keys. -/
structure DriveFile where
  id : String
  name : String
deriving DecidableEq, Repr, Inhabited

/-- The working-folder update of `classify_multiple`: if the result is a
new folder whose name is not yet present, append it. -/
def nextFolders (all_folders : List String) (result : ClassificationResult) : List String :=
  if result.is_new_folder && !(all_folders.contains result.suggested_folder)
  then all_folders ++ [result.suggested_folder]
  else all_folders

/-- The loop body of `FileClassifier.classify_multiple` (mock mode): for
each file in order, classify against the current working folder list, and
if the result is new and its folder not yet present, append the folder
before the next file. -/
def classify_multiple_go : List DriveFile → List String → List ClassificationResult
  | [], _ => []
  | file :: rest, all_folders =>
    classify_file file.name file.id all_folders none ::
      classify_multiple_go rest
        (nextFolders all_folders (classify_file file.name file.id all_folders none))

/-- `FileClassifier.classify_multiple` (mock mode): starts from a copy of
the caller's folder list and folds `classify_file` over the batch. -/
def classify_multiple (files : List DriveFile) (existing_folders : List String) :
    List ClassificationResult :=
  classify_multiple_go files existing_folders

/-! ## `organizer.py`: the `OrganizationPlan` aggregate -/

/-- `organizer.OrganizationPlan`: `folder_assignments` is an
insertion-ordered dict folder → bucket; `new_folders` and
`existing_folders` are Python sets, modelled as duplicate-free lists. -/
structure OrganizationPlan where
  folder_assignments : List (String × List ClassificationResult)
  new_folders : List String
  existing_folders : List String
deriving DecidableEq, Repr, Inhabited

/-- The freshly constructed empty plan. -/
def emptyPlan : OrganizationPlan := ⟨[], [], []⟩

/-- Dict key list in insertion order. -/
def dictKeys (fa : List (String × List ClassificationResult)) : List String :=
  fa.map (fun b => b.1)

/-- Dict lookup (keys are unique in every reachable plan). -/
def dictGet (fa : List (String × List ClassificationResult)) (k : String) :
    Option (List ClassificationResult) :=
  (fa.find? (fun b => b.1 == k)).map (fun b => b.2)

/-- Remove a key from the dict, preserving the order of the others
(Python `dict.pop`). -/
def dictRemove (fa : List (String × List ClassificationResult)) (k : String) :
    List (String × List ClassificationResult) :=
  fa.filter (fun b => b.1 != k)

/-- Python `d[k] = v`: overwrite in place if the key exists, otherwise
append the new key at the end (dict insertion order). -/
def dictSet (fa : List (String × List ClassificationResult)) (k : String)
    (v : List ClassificationResult) : List (String × List ClassificationResult) :=
  match fa with
  | [] => [(k, v)]
  | b :: rest => if b.1 == k then (k, v) :: rest else b :: dictSet rest k v

/-- Python `d[k].append(r)` for a key already present. -/
def dictAppendAt (fa : List (String × List ClassificationResult)) (k : String)
    (r : ClassificationResult) : List (String × List ClassificationResult) :=
  match fa with
  | [] => []
  | b :: rest => if b.1 == k then (b.1, b.2 ++ [r]) :: rest else b :: dictAppendAt rest k r

/-- Python `set.add`: no-op when the element is present. -/
def setAdd (s : List String) (x : String) : List String :=
  if s.contains x then s else s ++ [x]

/-- `OrganizationPlan.add_result`: append to the bucket for
`result.suggested_folder` (creating it at the end if absent) and add the
folder to `new_folders` or `existing_folders` per `result.is_new_folder`. -/
def add_result (p : OrganizationPlan) (result : ClassificationResult) : OrganizationPlan :=
  let folder := result.suggested_folder
  let fa :=
    if (dictKeys p.folder_assignments).contains folder
    then dictAppendAt p.folder_assignments folder result
    else p.folder_assignments ++ [(folder, [result])]
  if result.is_new_folder then
    { folder_assignments := fa,
      new_folders := setAdd p.new_folders folder,
      existing_folders := p.existing_folders }
  else
    { folder_assignments := fa,
      new_folders := p.new_folders,
      existing_folders := setAdd p.existing_folders folder }

/-- Outcome of `OrganizationPlan.rename_folder`: Python returns `False`
(not found) or `True`, or raises `AttributeError` because the source calls
the nonexistent set method `removed` when `old_name ∈ new_folders`. -/
inductive RenameOutcome where
  | notFound
  | ok
  | attrError
deriving DecidableEq, Repr

/-- `OrganizationPlan.rename_folder`: returns not-found if `old_name` is
not a key; otherwise pops the bucket, rewrites every contained result's
`suggested_folder` to `new_name`, and stores the bucket under `new_name`.
The membership sets are then left untouched on every path: when
`old_name ∈ new_folders` the source raises `AttributeError`
(`set` has no method `removed`) before mutating any set, and when
`old_name` is only in `existing_folders` the source has no code updating
the sets at all. The returned plan is the object state after the call. -/
def rename_folder (p : OrganizationPlan) (old_name new_name : String) :
    RenameOutcome × OrganizationPlan :=
  match dictGet p.folder_assignments old_name with
  | none => (RenameOutcome.notFound, p)
  | some files =>
    let files2 := files.map (fun r => { r with suggested_folder := new_name })
    let fa := dictSet (dictRemove p.folder_assignments old_name) new_name files2
    if p.new_folders.contains old_name then
      (RenameOutcome.attrError, { p with folder_assignments := fa })
    else
      (RenameOutcome.ok, { p with folder_assignments := fa })

/-- Remove the first result with the given id from a bucket. -/
def eraseFirstById (fid : String) : List ClassificationResult → List ClassificationResult
  | [] => []
  | r :: rest => if r.file_id == fid then rest else r :: eraseFirstById fid rest

/-- Core loop of `OrganizationPlan.remove_file`: scan the buckets in
order; in the first bucket containing the id, drop the first matching
result; report the folder name as well when its bucket became empty and
was deleted. `none` when the id occurs nowhere. -/
def removeAux (fid : String) :
    List (String × List ClassificationResult) →
    Option (List (String × List ClassificationResult) × Option String)
  | [] => none
  | (folder, files) :: rest =>
    if files.any (fun r => r.file_id == fid) then
      if (eraseFirstById fid files).isEmpty then some (rest, some folder)
      else some ((folder, eraseFirstById fid files) :: rest, none)
    else
      (removeAux fid rest).map (fun x => ((folder, files) :: x.1, x.2))

/-- `OrganizationPlan.remove_file`: remove the first result whose
`file_id` matches; if its bucket becomes empty, delete the bucket and
discard the folder from `new_folders` (the source never touches
`existing_folders` here); return found / not-found. -/
def remove_file (p : OrganizationPlan) (fid : String) : Bool × OrganizationPlan :=
  match removeAux fid p.folder_assignments with
  | none => (false, p)
  | some (fa, emptied) =>
    match emptied with
    | none => (true, { p with folder_assignments := fa })
    | some folder =>
      (true,
        { p with
          folder_assignments := fa
          new_folders := p.new_folders.filter (fun x => x != folder) })

/-- The flattened `(result, folder)` list built by the interactive skip
and move handlers (bucket iteration order, then within-bucket order). -/
def flattenFiles (p : OrganizationPlan) : List (ClassificationResult × String) :=
  p.folder_assignments.flatMap (fun b => b.2.map (fun r => (r, b.1)))

/-- The numeric-destination branch of `move_file_interactive`: remove the
selected result by id, overwrite its `suggested_folder` with the chosen
destination and its `is_new_folder` with membership of the destination in
the *post-removal* `new_folders` set, then `add_result` it back. -/
def move_file_result (p : OrganizationPlan) (result : ClassificationResult)
    (dest_folder : String) : OrganizationPlan :=
  let p1 := (remove_file p result.file_id).2
  let r2 :=
    { result with
      suggested_folder := dest_folder
      is_new_folder := p1.new_folders.contains dest_folder }
  add_result p1 r2

/-- The new-folder branch of `move_file_interactive`: same removal, but
`is_new_folder` is set to true unconditionally. -/
def move_file_new (p : OrganizationPlan) (result : ClassificationResult)
    (new_folder : String) : OrganizationPlan :=
  let p1 := (remove_file p result.file_id).2
  let r2 := { result with suggested_folder := new_folder, is_new_folder := true }
  add_result p1 r2

/-- `move_file_interactive`, numeric destination: the file is selected by
index into the flattened list and the destination by index into the
pre-removal key list; any out-of-range selection is a no-op. -/
def move_file_by_index (p : OrganizationPlan) (idx destIdx : Nat) : OrganizationPlan :=
  match (flattenFiles p).get? idx with
  | none => p
  | some rf =>
    match (dictKeys p.folder_assignments).get? destIdx with
    | none => p
    | some dest_folder => move_file_result p rf.1 dest_folder

/-- `move_file_interactive`, typed new-folder destination: a no-op when
the selection is out of range or the typed name is empty. -/
def move_file_new_by_index (p : OrganizationPlan) (idx : Nat) (new_folder : String) :
    OrganizationPlan :=
  match (flattenFiles p).get? idx with
  | none => p
  | some rf =>
    if new_folder.data.isEmpty then p else move_file_new p rf.1 new_folder

/-- Plans reachable from the empty plan by the operations the program
performs on a plan: `add_result`, `rename_folder`, `remove_file`, and the
two move branches of the interactive loop. -/
inductive Reachable : OrganizationPlan → Prop where
  | empty : Reachable emptyPlan
  | add (p : OrganizationPlan) (r : ClassificationResult) :
      Reachable p → Reachable (add_result p r)
  | rename (p : OrganizationPlan) (old_name new_name : String) :
      Reachable p → Reachable (rename_folder p old_name new_name).2
  | remove (p : OrganizationPlan) (fid : String) :
      Reachable p → Reachable (remove_file p fid).2
  | move (p : OrganizationPlan) (idx destIdx : Nat) :
      Reachable p → Reachable (move_file_by_index p idx destIdx)
  | moveNew (p : OrganizationPlan) (idx : Nat) (nf : String) :
      Reachable p → Reachable (move_file_new_by_index p idx nf)

/-- The number of results in the plan carrying the given file id. -/
def countFid (fa : List (String × List ClassificationResult)) (fid : String) : Nat :=
  (fa.map (fun b => b.2.countP (fun r => r.file_id == fid))).sum

/-- The invariant asserted by the specification for `OrganizationPlan`
(claim C2), written over the embedded state: the key set equals the
disjoint union of `new_folders` and `existing_folders`, and every bucket
is non-empty. -/
def specBucketInvariant (p : OrganizationPlan) : Bool :=
  let keys := dictKeys p.folder_assignments
  let union := p.new_folders ++ p.existing_folders
  keys.all (fun k => union.contains k) &&
  union.all (fun k => keys.contains k) &&
  p.new_folders.all (fun k => !(p.existing_folders.contains k)) &&
  p.folder_assignments.all (fun b => !(b.2.isEmpty))

end DriveOrganizer

namespace MockClassifierModule

/-! ## `mock_classifier.py`: the alternate regex rule classifier

Its module-local `ClassificationResult` dataclass declares only five
fields — there is no `confidence` field — while every return path of
`MockClassifier.classify_file` passes a `confidence` keyword argument to
the constructor. Python dataclass construction with an undeclared keyword
argument raises `TypeError`, which the embedding models with `Except`:
constructing a record through `initResult` first checks every supplied
keyword-argument name against the declared field list.

Regular-expression matching (`re.search`) is abstracted as an arbitrary
Boolean predicate `reSearch pattern text`: the classification outcome
proved about this module holds for every semantics of the regex engine,
so nothing is assumed about it. -/

/-- The declared fields of `mock_classifier.ClassificationResult`. -/
def resultFields : List String :=
  ["file_id", "file_name", "suggested_folder", "is_new_folder", "reasoning"]

/-- `mock_classifier.ClassificationResult` (no `confidence` field). -/
structure ClassificationResult where
  file_id : String
  file_name : String
  suggested_folder : String
  is_new_folder : Bool
  reasoning : String
deriving DecidableEq, Repr, Inhabited

/-- Dataclass construction with keyword arguments: the record value `r`
is the would-be result, and `kwargs` the keyword-argument names supplied
at the call site; any name not among the declared fields raises
`TypeError`, as Python does. -/
def initResult (kwargs : List String) (r : ClassificationResult) :
    Except String ClassificationResult :=
  match kwargs.find? (fun k => !(resultFields.contains k)) with
  | some k => Except.error ("TypeError: unexpected keyword argument " ++ k)
  | none => Except.ok r

/-- `mock_classifier.MockClassifier.KEYWORD_RULES`: the ordered
(pattern, folder) rule list, in source order. -/
def KEYWORD_RULES : List (String × String) := [
  ("sos[-_ ]?231", "Social Sciences"),
  ("ort[-_ ]?11[12]", "Oral Communication"),
  ("comp[-_ ]?ii", "Computer Science"),
  ("c\\+\\+", "Computer Science"),
  ("python", "Computer Science"),
  ("mansa.?musa", "African History"),
  ("mali(an)?.*empire", "African History"),
  ("african.*diaspora", "African History"),
  ("egypt(ian)?", "African History"),
  ("pharaoh", "African History"),
  ("mesopotamia", "World History"),
  ("fertile.?crescent", "World History"),
  ("physics", "Physics Files"),
  ("newton", "Physics Files"),
  ("quantum", "Physics Files"),
  ("thermodynamics", "Physics Files"),
  ("biology", "Biology Coursework"),
  ("muscular", "Biology Coursework"),
  ("digestive", "Biology Coursework"),
  ("immune.*system", "Biology Coursework"),
  ("organs", "Biology Coursework"),
  ("calculus", "Mathematics"),
  ("algorithm", "Computer Science"),
  ("dijstra", "Computer Science"),
  ("kruskal", "Computer Science"),
  ("resume", "Resume"),
  ("cv\\b", "Resume"),
  ("curriculum.?vitae", "Resume"),
  ("cover[_\\s]?letter", "Job Applications"),
  ("application", "Job Applications"),
  ("internship", "Job Applications"),
  ("job.*description", "Job Applications"),
  ("interview", "Interview Prep"),
  ("behavioral.*interview", "Interview Prep"),
  ("treehacks", "Hackathon Projects"),
  ("nexhacks", "Hackathon Projects"),
  ("hackathon", "Hackathon Projects"),
  ("microsoft", "Job Applications"),
  ("google", "Job Applications"),
  ("uber", "Job Applications"),
  ("meta\\b", "Job Applications"),
  ("amazon", "Job Applications"),
  ("d\\.?e\\.?\\s*shaw", "Job Applications"),
  ("codepath", "Tech Programs"),
  ("code2040", "Tech Programs"),
  ("new.?technologists", "Tech Programs"),
  ("\\bisa\\b", "ISA Documents"),
  ("international.*student", "ISA Documents"),
  ("\\bgdsc\\b", "GDSC Documents"),
  ("google.*developer", "GDSC Documents"),
  ("study.?notes", "Course Notes"),
  ("notes", "Course Notes"),
  ("lecture", "Course Notes"),
  ("assignment", "Course Notes"),
  ("homework", "Course Notes"),
  ("\\bquiz\\b", "Course Notes"),
  ("\\bexam\\b", "Course Notes"),
  ("\\bessay\\b", "Essays"),
  ("research.*paper", "Research Papers"),
  ("speech", "Speech Class"),
  ("presentation", "Presentations"),
  ("receipt", "Financial Records"),
  ("invoice", "Financial Records"),
  ("budget", "Financial Records"),
  ("tax", "Financial Records"),
  ("bank", "Financial Records"),
  ("statement", "Financial Records"),
  ("transcript", "Personal Documents"),
  ("certificate", "Certificates"),
  ("certification", "Certificates"),
  ("diploma", "Certificates"),
  ("recommendation", "Recommendations"),
  ("reference", "Recommendations"),
  ("photo", "Photos"),
  ("\\bimg\\b", "Photos"),
  ("image", "Photos"),
  ("\\.jpe?g$", "Photos"),
  ("\\.png$", "Photos"),
  ("screenshot", "Screenshots"),
  ("screen.?recording", "Screen Recordings"),
  ("\\.mp4$", "Videos"),
  ("\\.mov$", "Videos"),
  ("vid[-_]", "Videos"),
  ("project", "Projects"),
  ("github", "Projects"),
  ("firebase", "Projects")]

/-- The keyword-argument names passed at every constructor call site in
`MockClassifier.classify_file` — all three return paths include
`confidence`. -/
def classifyKwargs : List String :=
  ["file_id", "file_name", "suggested_folder", "is_new_folder", "confidence", "reasoning"]

/-- `mock_classifier.MockClassifier.classify_file`, parametric in the
regex-match predicate `reSearch`: scan the rule table for the first
pattern matching the lower-cased name, fall back to the `untitled`
heuristic (`"Drafts"`) and then to `"To Sort"`; each path constructs the
module-local `ClassificationResult` with a `confidence` keyword argument. -/
def classify_file (reSearch : String → String → Bool)
    (file_name file_id : String) (existing_folders : List String)
    (file_content_snippet : Option String) : Except String ClassificationResult :=
  let name_lower := DriveOrganizer.pyLower file_name
  match KEYWORD_RULES.find? (fun kv => reSearch kv.1 name_lower) with
  | some kv =>
    match existing_folders.find?
        (fun existing => DriveOrganizer.pyLower existing == DriveOrganizer.pyLower kv.2) with
    | some existing =>
      initResult classifyKwargs
        { file_id := file_id, file_name := file_name,
          suggested_folder := existing, is_new_folder := false,
          reasoning := "Matched pattern " ++ kv.1 ++ " in filename" }
    | none =>
      initResult classifyKwargs
        { file_id := file_id, file_name := file_name,
          suggested_folder := kv.2, is_new_folder := true,
          reasoning := "Matched pattern " ++ kv.1 ++ " in filename" }
  | none =>
    if DriveOrganizer.strIn "untitled" name_lower then
      initResult classifyKwargs
        { file_id := file_id, file_name := file_name,
          suggested_folder := "Drafts",
          is_new_folder := !(existing_folders.contains "Drafts"),
          reasoning := "Untitled document - likely a draft" }
    else
      initResult classifyKwargs
        { file_id := file_id, file_name := file_name,
          suggested_folder := "To Sort",
          is_new_folder := !(existing_folders.contains "To Sort"),
          reasoning := "No clear category detected - needs manual review" }

end MockClassifierModule

namespace DriveOrganizer

/-! ## Concrete fixtures used by counterexamples and witnesses -/

/-- A result filed under folder `"A"` marked as a new folder. -/
def rA_new : ClassificationResult :=
  { file_id := "f1", file_name := "a.txt", suggested_folder := "A",
    is_new_folder := true, confidence := "high", reasoning := "fixture" }

/-- A result filed under folder `"A"` marked as an existing folder. -/
def rA_existing : ClassificationResult :=
  { file_id := "f1", file_name := "a.txt", suggested_folder := "A",
    is_new_folder := false, confidence := "high", reasoning := "fixture" }

/-- A result filed under folder `"B"` marked as a new folder. -/
def rB_new : ClassificationResult :=
  { file_id := "f2", file_name := "b.txt", suggested_folder := "B",
    is_new_folder := true, confidence := "high", reasoning := "fixture" }

/-- Plan with the single bucket `"A" = [rA_new]`, `"A" ∈ new_folders`. -/
def planA_new : OrganizationPlan := add_result emptyPlan rA_new

/-- Plan with the single bucket `"A" = [rA_existing]`,
`"A" ∈ existing_folders`. -/
def planA_existing : OrganizationPlan := add_result emptyPlan rA_existing

/-- Plan with buckets `"A" = [rA_existing]` and `"B" = [rB_new]`,
`"A" ∈ existing_folders`, `"B" ∈ new_folders`. -/
def planAB : OrganizationPlan := add_result (add_result emptyPlan rA_existing) rB_new

/-- The plan obtained from `planA_existing` by removing its only file:
the bucket disappears but `existing_folders` still holds `"A"`. -/
def c2Plan : OrganizationPlan := (remove_file planA_existing "f1").2

/-- A two-file batch whose names both match the `physics` keyword. -/
def cBatch : List DriveFile := [⟨"1", "physics_hw.pdf"⟩, ⟨"2", "physics_lab.pdf"⟩]

/-- The classification of the first batch file against no known folders. -/
def cRes0 : ClassificationResult := classify_file "physics_hw.pdf" "1" [] none

/-- The classification of the second batch file after the first file's
new folder has been appended to the working folder list. -/
def cRes1 : ClassificationResult :=
  classify_file "physics_lab.pdf" "2" ["Physics Files"] none

/-! ## Helper lemmas about the classifier -/

/-- On every path, `classify_file` copies the input id and name into the
result. -/
theorem classify_file_id_name (file_name file_id : String) (folders : List String)
    (snip : Option String) :
    (classify_file file_name file_id folders snip).file_id = file_id ∧
    (classify_file file_name file_id folders snip).file_name = file_name := by
  unfold classify_file
  dsimp only
  cases hkw : KEYWORD_RULES.find? (fun kv => strIn kv.1 (pyLower file_name)) with
  | none => exact ⟨rfl, rfl⟩
  | some kv =>
    dsimp only
    cases hex : folders.find? (fun existing => pyLower existing == pyLower kv.2) with
    | none => exact ⟨rfl, rfl⟩
    | some existing => exact ⟨rfl, rfl⟩

/-- If the suggested folder of a classification is already present
(case-sensitively) in the folder list the classification was made
against, the result is not marked as a new folder. -/
theorem classify_file_not_new_of_mem (file_name file_id F : String)
    (folders : List String) (snip : Option String) (hF : F ∈ folders)
    (hs : (classify_file file_name file_id folders snip).suggested_folder = F) :
    (classify_file file_name file_id folders snip).is_new_folder = false := by
  unfold classify_file at hs ⊢
  dsimp only at hs ⊢
  cases hkw : KEYWORD_RULES.find? (fun kv => strIn kv.1 (pyLower file_name)) with
  | none =>
    rw [hkw] at hs
    simp only at hs ⊢
    have hc : folders.contains "Miscellaneous" = true := by
      rw [hs]
      simpa [List.contains] using hF
    rw [hc]
    rfl
  | some kv =>
    rw [hkw] at hs
    dsimp only at hs ⊢
    cases hex : folders.find? (fun existing => pyLower existing == pyLower kv.2) with
    | some existing => rfl
    | none =>
      rw [hex] at hs
      simp only at hs ⊢
      exfalso
      have hall := List.find?_eq_none.mp hex F hF
      rw [hs] at hall
      simp at hall

/-- The bookkeeping list of `classify_multiple` only grows. -/
theorem mem_nextFolders (all_folders : List String) (r : ClassificationResult)
    (F : String) (hF : F ∈ all_folders) : F ∈ nextFolders all_folders r := by
  unfold nextFolders
  split
  · exact List.mem_append_left _ hF
  · exact hF

/-- After processing a result marked new, its folder is in the working
folder list. -/
theorem suggested_mem_nextFolders (all_folders : List String)
    (r : ClassificationResult) (h : r.is_new_folder = true) :
    r.suggested_folder ∈ nextFolders all_folders r := by
  unfold nextFolders
  by_cases hc : all_folders.contains r.suggested_folder = true
  · have hm : r.suggested_folder ∈ all_folders := by simpa [List.contains] using hc
    split
    · exact List.mem_append_left _ hm
    · exact hm
  · have hcf : all_folders.contains r.suggested_folder = false := Bool.eq_false_iff.mpr hc
    have hcond : (r.is_new_folder && !(all_folders.contains r.suggested_folder)) = true := by
      rw [h, hcf]
      rfl
    rw [if_pos hcond]
    exact List.mem_append_right _ (List.mem_singleton.mpr rfl)

/-- Once a folder name is in the working list, every later result of the
batch suggesting that folder is marked as not new. -/
theorem go_not_new_of_mem (F : String) :
    ∀ (files : List DriveFile) (folders : List String), F ∈ folders →
      ∀ r ∈ classify_multiple_go files folders,
        r.suggested_folder = F → r.is_new_folder = false := by
  intro files
  induction files with
  | nil => intro folders _ r hr; simp [classify_multiple_go] at hr
  | cons f rest ih =>
    intro folders hF r hr hs
    rw [classify_multiple_go] at hr
    rcases List.mem_cons.mp hr with h | h
    · subst h
      exact classify_file_not_new_of_mem f.name f.id F folders none hF hs
    · exact ih _ (mem_nextFolders _ _ _ hF) r h hs

/-! ## Helper lemmas about `remove_file` -/

/-- `removeAux` finds nothing exactly when no result in any bucket
carries the id. -/
theorem removeAux_eq_none_iff (fid : String) :
    ∀ fa : List (String × List ClassificationResult),
      removeAux fid fa = none ↔ countFid fa fid = 0 := by
  intro fa
  induction fa with
  | nil => simp [removeAux, countFid]
  | cons b rest ih =>
    obtain ⟨folder, files⟩ := b
    rw [removeAux]
    by_cases hany : files.any (fun r => r.file_id == fid) = true
    · have hpos : 0 < files.countP (fun r => r.file_id == fid) := by
        rcases List.any_eq_true.mp hany with ⟨r, hr, hp⟩
        exact List.countP_pos_iff.mpr ⟨r, hr, hp⟩
      rw [if_pos hany]
      constructor
      · intro h
        split at h <;> simp at h
      · intro h
        exfalso
        simp only [countFid, List.map_cons, List.sum_cons] at h
        omega
    · have hz : files.countP (fun r => r.file_id == fid) = 0 := by
        rw [List.countP_eq_zero]
        intro r hr
        have := List.any_eq_false.mp (Bool.eq_false_iff.mpr hany) r hr
        simpa using this
      rw [if_neg hany]
      rw [Option.map_eq_none']
      rw [ih]
      simp only [countFid, List.map_cons, List.sum_cons, hz]
      omega

/-- Dropping the first matching result lowers the count by one. -/
theorem eraseFirstById_countP (fid : String) :
    ∀ files : List ClassificationResult,
      files.any (fun r => r.file_id == fid) = true →
      (eraseFirstById fid files).countP (fun r => r.file_id == fid)
        = files.countP (fun r => r.file_id == fid) - 1 := by
  intro files
  induction files with
  | nil => intro h; simp at h
  | cons r rest ih =>
    intro h
    rw [eraseFirstById]
    by_cases hr : (r.file_id == fid) = true
    · rw [if_pos hr]
      simp [List.countP_cons, hr]
    · rw [if_neg hr]
      have hrest : rest.any (fun x => x.file_id == fid) = true := by
        rcases List.any_eq_true.mp h with ⟨x, hx, hp⟩
        rcases List.mem_cons.mp hx with h1 | h1
        · exact absurd (h1 ▸ hp) hr
        · exact List.any_eq_true.mpr ⟨x, h1, hp⟩
      have hrf : (r.file_id == fid) = false := Bool.eq_false_iff.mpr hr
      simp only [List.countP_cons, hrf, if_false, Nat.add_zero]
      exact ih hrest

/-- A successful `removeAux` lowers the total count by one. -/
theorem removeAux_some_countFid (fid : String) :
    ∀ (fa fa2 : List (String × List ClassificationResult))
      (e : Option String), removeAux fid fa = some (fa2, e) →
      countFid fa2 fid = countFid fa fid - 1 := by
  intro fa
  induction fa with
  | nil => intro fa2 e h; simp [removeAux] at h
  | cons b rest ih =>
    intro fa2 e h
    obtain ⟨folder, files⟩ := b
    rw [removeAux] at h
    by_cases hany : files.any (fun r => r.file_id == fid) = true
    · rw [if_pos hany] at h
      have hpos : 0 < files.countP (fun r => r.file_id == fid) := by
        rcases List.any_eq_true.mp hany with ⟨r, hr, hp⟩
        exact List.countP_pos_iff.mpr ⟨r, hr, hp⟩
      have hcount := eraseFirstById_countP fid files hany
      split at h
      · rename_i hempty
        have h0 : (eraseFirstById fid files).countP (fun r => r.file_id == fid) = 0 := by
          rw [List.isEmpty_iff] at hempty
          rw [hempty]
          rfl
        simp only [Option.some.injEq, Prod.mk.injEq] at h
        obtain ⟨h1, h2⟩ := h
        subst h1
        simp only [countFid, List.map_cons, List.sum_cons]
        simp only [countFid] at *
        omega
      · simp only [Option.some.injEq, Prod.mk.injEq] at h
        obtain ⟨h1, h2⟩ := h
        subst h1
        simp only [countFid, List.map_cons, List.sum_cons]
        simp only [countFid] at *
        omega
    · rw [if_neg hany] at h
      have hz : files.countP (fun r => r.file_id == fid) = 0 := by
        rw [List.countP_eq_zero]
        intro r hr
        have := List.any_eq_false.mp (Bool.eq_false_iff.mpr hany) r hr
        simpa using this
      rcases hrest : removeAux fid rest with _ | p
      · rw [hrest] at h; simp at h
      · rw [hrest] at h
        obtain ⟨fa3, e3⟩ := p
        simp only [Option.map_some', Option.some.injEq, Prod.mk.injEq] at h
        obtain ⟨h1, h2⟩ := h
        subst h1
        have hih := ih fa3 e3 hrest
        simp only [countFid, List.map_cons, List.sum_cons]
        simp only [countFid] at *
        omega

/-- `remove_file` with an id not present in the plan reports not-found
and returns the plan unchanged. -/
theorem remove_file_not_found (p : OrganizationPlan) (fid : String)
    (h : countFid p.folder_assignments fid = 0) : remove_file p fid = (false, p) := by
  rw [remove_file, (removeAux_eq_none_iff fid p.folder_assignments).mpr h]

/-- `remove_file` never touches `existing_folders`. -/
theorem remove_file_existing_folders (p : OrganizationPlan) (fid : String) :
    (remove_file p fid).2.existing_folders = p.existing_folders := by
  rw [remove_file]
  rcases h : removeAux fid p.folder_assignments with _ | pr
  · rfl
  · obtain ⟨fa, e⟩ := pr
    cases e <;> rfl

/-- A successful `remove_file` reports found and lowers the count of the
removed id by one. -/
theorem remove_file_found (p : OrganizationPlan) (fid : String)
    (h : countFid p.folder_assignments fid ≠ 0) :
    (remove_file p fid).1 = true ∧
    countFid (remove_file p fid).2.folder_assignments fid
      = countFid p.folder_assignments fid - 1 := by
  rw [remove_file]
  rcases ha : removeAux fid p.folder_assignments with _ | pr
  · exact absurd ((removeAux_eq_none_iff fid p.folder_assignments).mp ha) h
  · obtain ⟨fa, e⟩ := pr
    have := removeAux_some_countFid fid p.folder_assignments fa e ha
    cases e <;> exact ⟨rfl, this⟩

/-! ## Bucket non-emptiness is preserved by every plan operation -/

/-- Appending to a bucket keeps all buckets non-empty. -/
theorem dictAppendAt_nonempty (k : String) (r : ClassificationResult) :
    ∀ fa, fa.all (fun b => !(b.2.isEmpty)) = true →
      (dictAppendAt fa k r).all (fun b => !(b.2.isEmpty)) = true := by
  intro fa
  induction fa with
  | nil => intro _; rfl
  | cons b rest ih =>
    intro h
    rw [List.all_cons] at h
    obtain ⟨h1, h2⟩ := Bool.and_eq_true_iff.mp h
    rw [dictAppendAt]
    split
    · rw [List.all_cons, h2]
      simp
    · rw [List.all_cons, h1, ih h2]
      rfl

/-- Overwriting or appending a non-empty bucket keeps all buckets
non-empty. -/
theorem dictSet_nonempty (k : String) (v : List ClassificationResult)
    (hv : v.isEmpty = false) :
    ∀ fa, fa.all (fun b => !(b.2.isEmpty)) = true →
      (dictSet fa k v).all (fun b => !(b.2.isEmpty)) = true := by
  intro fa
  induction fa with
  | nil =>
    intro _
    simp [dictSet, hv]
  | cons b rest ih =>
    intro h
    rw [List.all_cons] at h
    obtain ⟨h1, h2⟩ := Bool.and_eq_true_iff.mp h
    rw [dictSet]
    split
    · rw [List.all_cons, h2]
      simp [hv]
    · rw [List.all_cons, h1, ih h2]
      rfl

/-- Deleting a key keeps all remaining buckets non-empty. -/
theorem dictRemove_nonempty (k : String)
    (fa : List (String × List ClassificationResult))
    (h : fa.all (fun b => !(b.2.isEmpty)) = true) :
    (dictRemove fa k).all (fun b => !(b.2.isEmpty)) = true := by
  rw [List.all_eq_true] at h ⊢
  intro b hb
  exact h b (List.mem_of_mem_filter hb)

/-- A bucket looked up in a plan with non-empty buckets is non-empty. -/
theorem dictGet_nonempty (fa : List (String × List ClassificationResult))
    (k : String) (files : List ClassificationResult)
    (hall : fa.all (fun b => !(b.2.isEmpty)) = true)
    (h : dictGet fa k = some files) : files.isEmpty = false := by
  rw [dictGet] at h
  rcases Option.map_eq_some'.mp h with ⟨b, hb, hbv⟩
  have hm := List.mem_of_find?_eq_some hb
  have := List.all_eq_true.mp hall b hm
  rw [hbv] at this
  simpa using this

/-- `add_result` keeps all buckets non-empty. -/
theorem add_result_nonempty (p : OrganizationPlan) (r : ClassificationResult)
    (h : p.folder_assignments.all (fun b => !(b.2.isEmpty)) = true) :
    (add_result p r).folder_assignments.all (fun b => !(b.2.isEmpty)) = true := by
  rw [add_result]
  split <;> split
  · exact dictAppendAt_nonempty _ _ _ h
  · simp [List.all_append, h]
  · exact dictAppendAt_nonempty _ _ _ h
  · simp [List.all_append, h]

/-- `rename_folder` keeps all buckets non-empty (in both the returning
and the raising case). -/
theorem rename_folder_nonempty (p : OrganizationPlan) (old_name new_name : String)
    (h : p.folder_assignments.all (fun b => !(b.2.isEmpty)) = true) :
    (rename_folder p old_name new_name).2.folder_assignments.all
      (fun b => !(b.2.isEmpty)) = true := by
  rw [rename_folder]
  cases hg : dictGet p.folder_assignments old_name with
  | none => exact h
  | some files =>
    have hne : files.isEmpty = false := dictGet_nonempty _ _ _ h hg
    have hne2 : (files.map (fun r => { r with suggested_folder := new_name })).isEmpty = false := by
      cases files with
      | nil => simp at hne
      | cons a l => rfl
    dsimp only
    split <;>
      exact dictSet_nonempty _ _ hne2 _ (dictRemove_nonempty _ _ h)

/-- `removeAux` keeps all surviving buckets non-empty. -/
theorem removeAux_nonempty (fid : String) :
    ∀ (fa fa2 : List (String × List ClassificationResult)) (e : Option String),
      fa.all (fun b => !(b.2.isEmpty)) = true →
      removeAux fid fa = some (fa2, e) →
      fa2.all (fun b => !(b.2.isEmpty)) = true := by
  intro fa
  induction fa with
  | nil => intro fa2 e _ h; simp [removeAux] at h
  | cons b rest ih =>
    intro fa2 e hall h
    obtain ⟨folder, files⟩ := b
    rw [List.all_cons] at hall
    obtain ⟨h1, h2⟩ := Bool.and_eq_true_iff.mp hall
    rw [removeAux] at h
    by_cases hany : files.any (fun r => r.file_id == fid) = true
    · rw [if_pos hany] at h
      split at h
      · simp only [Option.some.injEq, Prod.mk.injEq] at h
        obtain ⟨hfa, _⟩ := h
        subst hfa
        exact h2
      · rename_i hne
        simp only [Option.some.injEq, Prod.mk.injEq] at h
        obtain ⟨hfa, _⟩ := h
        subst hfa
        rw [List.all_cons, h2]
        simp [Bool.eq_false_iff.mpr hne]
    · rw [if_neg hany] at h
      rcases hrest : removeAux fid rest with _ | pr
      · rw [hrest] at h; simp at h
      · rw [hrest] at h
        obtain ⟨fa3, e3⟩ := pr
        simp only [Option.map_some', Option.some.injEq, Prod.mk.injEq] at h
        obtain ⟨hfa, _⟩ := h
        subst hfa
        rw [List.all_cons, h1, ih fa3 e3 h2 hrest]
        rfl

/-- `remove_file` keeps all buckets non-empty. -/
theorem remove_file_nonempty (p : OrganizationPlan) (fid : String)
    (h : p.folder_assignments.all (fun b => !(b.2.isEmpty)) = true) :
    (remove_file p fid).2.folder_assignments.all (fun b => !(b.2.isEmpty)) = true := by
  rw [remove_file]
  rcases ha : removeAux fid p.folder_assignments with _ | pr
  · exact h
  · obtain ⟨fa, e⟩ := pr
    cases e <;> exact removeAux_nonempty fid p.folder_assignments fa _ h ha

/-- Both interactive move branches keep all buckets non-empty. -/
theorem move_file_result_nonempty (p : OrganizationPlan)
    (r : ClassificationResult) (dest : String)
    (h : p.folder_assignments.all (fun b => !(b.2.isEmpty)) = true) :
    (move_file_result p r dest).folder_assignments.all (fun b => !(b.2.isEmpty)) = true :=
  add_result_nonempty _ _ (remove_file_nonempty p r.file_id h)

/-- The new-folder move branch keeps all buckets non-empty. -/
theorem move_file_new_nonempty (p : OrganizationPlan)
    (r : ClassificationResult) (nf : String)
    (h : p.folder_assignments.all (fun b => !(b.2.isEmpty)) = true) :
    (move_file_new p r nf).folder_assignments.all (fun b => !(b.2.isEmpty)) = true :=
  add_result_nonempty _ _ (remove_file_nonempty p r.file_id h)

/-! ## Claim C1 -/

/-- C1, counterexample: the claim says the rule classifier never returns
the reserved generic label `"Miscellaneous"`; but on the file name
`"random_file_xyz.bin"` (which matches no keyword rule) `classify_file`
returns exactly `suggested_folder = "Miscellaneous"` with confidence
`"low"` — the generic label, not a specific last-resort folder. -/
theorem C1_counterexample :
    (classify_file "random_file_xyz.bin" "f1" [] none).suggested_folder
      = "Miscellaneous" ∧
    (classify_file "random_file_xyz.bin" "f1" [] none).confidence = "low" := by
  constructor <;> rfl

/-- C1 (amended): when no keyword rule matches the lower-cased file name,
`classify_file` returns the reserved generic label `"Miscellaneous"` with
confidence `"low"`; only on the rule-match path is the suggested folder
never a generic label (case-insensitively distinct from
`"Miscellaneous"` and `"Uncategorized"`). -/
theorem C1_amended :
    (∀ (file_name file_id : String) (folders : List String) (snip : Option String),
      KEYWORD_RULES.find? (fun kv => strIn kv.1 (pyLower file_name)) = none →
      (classify_file file_name file_id folders snip).suggested_folder = "Miscellaneous" ∧
      (classify_file file_name file_id folders snip).confidence = "low") ∧
    (∀ (file_name file_id : String) (folders : List String) (snip : Option String)
        (kv : String × String),
      KEYWORD_RULES.find? (fun kv2 => strIn kv2.1 (pyLower file_name)) = some kv →
      pyLower (classify_file file_name file_id folders snip).suggested_folder
        ≠ "miscellaneous" ∧
      pyLower (classify_file file_name file_id folders snip).suggested_folder
        ≠ "uncategorized") := by
  constructor
  · intro file_name file_id folders snip h
    unfold classify_file
    dsimp only
    rw [h]
    exact ⟨rfl, rfl⟩
  · intro file_name file_id folders snip kv h
    have hmem : kv ∈ KEYWORD_RULES := List.mem_of_find?_eq_some h
    have htable : ∀ kv2 ∈ KEYWORD_RULES,
        pyLower kv2.2 ≠ "miscellaneous" ∧ pyLower kv2.2 ≠ "uncategorized" := by decide
    have hsugg : pyLower (classify_file file_name file_id folders snip).suggested_folder
        = pyLower kv.2 := by
      unfold classify_file
      dsimp only
      rw [h]
      dsimp only
      cases hex : folders.find? (fun existing => pyLower existing == pyLower kv.2) with
      | none => rfl
      | some e =>
        have hpred := List.find?_some hex
        have he : pyLower e = pyLower kv.2 := eq_of_beq hpred
        simpa using he
    rw [hsugg]
    exact htable kv hmem

/-- C1, witness for the amended theorem: `"random_file_xyz.bin"` matches
no rule and yields `"Miscellaneous"/"low"`; `"resume.pdf"` matches the
`resume` rule and its suggested folder is not a generic label. -/
theorem C1_witness :
    ((classify_file "random_file_xyz.bin" "f9" ["Photos"] none).suggested_folder
        = "Miscellaneous" ∧
      (classify_file "random_file_xyz.bin" "f9" ["Photos"] none).confidence = "low") ∧
    (pyLower (classify_file "resume.pdf" "f8" ["Photos"] none).suggested_folder
        ≠ "miscellaneous" ∧
      pyLower (classify_file "resume.pdf" "f8" ["Photos"] none).suggested_folder
        ≠ "uncategorized") :=
  ⟨C1_amended.1 "random_file_xyz.bin" "f9" ["Photos"] none (by decide),
   C1_amended.2 "resume.pdf" "f8" ["Photos"] none ("resume", "Resume") (by decide)⟩

/-! ## Claim C8 -/

/-- C8, counterexample: the claim says `is_new_folder` is true iff the
suggested folder did not case-insensitively match a known folder, on
every return path including the fallback. On the no-rule-match path with
known folders `["miscellaneous"]`, the code returns
`suggested_folder = "Miscellaneous"` with `is_new_folder = true` although
`"miscellaneous"` matches case-insensitively — and the existing casing is
not reused. -/
theorem C8_counterexample :
    (classify_file "random_file_xyz.bin" "f1" ["miscellaneous"] none).suggested_folder
      = "Miscellaneous" ∧
    (classify_file "random_file_xyz.bin" "f1" ["miscellaneous"] none).is_new_folder
      = true ∧
    (["miscellaneous"].any (fun e => pyLower e == pyLower "Miscellaneous")) = true := by
  refine ⟨rfl, rfl, ?_⟩
  decide

/-- C8 (amended): on the rule-match path, `is_new_folder` is true iff no
known folder case-insensitively matches the matched rule label, and on a
match the first matching folder's exact casing is reused; on the
no-rule-match fallback path, the label is the literal `"Miscellaneous"`
and `is_new_folder` is decided by exact, case-sensitive membership of
`"Miscellaneous"` (no case-insensitive matching, no casing reuse). -/
theorem C8_amended :
    (∀ (file_name file_id : String) (folders : List String) (snip : Option String)
        (kv : String × String),
      KEYWORD_RULES.find? (fun kv2 => strIn kv2.1 (pyLower file_name)) = some kv →
      ((classify_file file_name file_id folders snip).is_new_folder
        = !(folders.any (fun e => pyLower e == pyLower kv.2))) ∧
      (∀ e, folders.find? (fun e2 => pyLower e2 == pyLower kv.2) = some e →
        (classify_file file_name file_id folders snip).suggested_folder = e)) ∧
    (∀ (file_name file_id : String) (folders : List String) (snip : Option String),
      KEYWORD_RULES.find? (fun kv2 => strIn kv2.1 (pyLower file_name)) = none →
      (classify_file file_name file_id folders snip).suggested_folder = "Miscellaneous" ∧
      (classify_file file_name file_id folders snip).is_new_folder
        = !(folders.contains "Miscellaneous")) := by
  constructor
  · intro file_name file_id folders snip kv h
    unfold classify_file
    dsimp only
    rw [h]
    dsimp only
    cases hex : folders.find? (fun existing => pyLower existing == pyLower kv.2) with
    | some e =>
      have hp := List.find?_some hex
      have hany : folders.any (fun e2 => pyLower e2 == pyLower kv.2) = true :=
        List.any_eq_true.mpr ⟨e, List.mem_of_find?_eq_some hex, by simpa using hp⟩
      constructor
      · rw [hany]
        rfl
      · intro e2 he2
        have he : e = e2 := Option.some.inj he2
        simpa using he
    | none =>
      have hany : folders.any (fun e2 => pyLower e2 == pyLower kv.2) = false := by
        rw [List.any_eq_false]
        intro x hx
        simpa using List.find?_eq_none.mp hex x hx
      constructor
      · rw [hany]
        rfl
      · intro e2 he2
        exact absurd he2 (by simp)
  · intro file_name file_id folders snip h
    unfold classify_file
    dsimp only
    rw [h]
    exact ⟨rfl, rfl⟩

/-- C8, witness for the amended theorem, with both paths instantiated:
`"Budget_2024.xlsx"` matches the `budget` rule against
`["financial records"]` (case-insensitive hit, casing reused), and
`"random_file_xyz.bin"` matches no rule against `["miscellaneous"]`. -/
theorem C8_witness :
    (((classify_file "Budget_2024.xlsx" "f7" ["financial records"] none).is_new_folder
        = !(["financial records"].any
            (fun e => pyLower e == pyLower "Financial Records"))) ∧
      (classify_file "Budget_2024.xlsx" "f7" ["financial records"] none).suggested_folder
        = "financial records") ∧
    ((classify_file "random_file_xyz.bin" "f1" ["miscellaneous"] none).suggested_folder
        = "Miscellaneous" ∧
      (classify_file "random_file_xyz.bin" "f1" ["miscellaneous"] none).is_new_folder
        = !(["miscellaneous"].contains "Miscellaneous")) :=
  ⟨⟨(C8_amended.1 "Budget_2024.xlsx" "f7" ["financial records"] none
        ("budget", "Financial Records") (by decide)).1,
    (C8_amended.1 "Budget_2024.xlsx" "f7" ["financial records"] none
        ("budget", "Financial Records") (by decide)).2 "financial records" (by decide)⟩,
   C8_amended.2 "random_file_xyz.bin" "f1" ["miscellaneous"] none (by decide)⟩

end DriveOrganizer

namespace DriveOrganizer

/-! ## Claim C2 -/

/-- C2, counterexample: `c2Plan` is reachable from the empty plan by
`add_result` (a result marked existing) followed by `remove_file`, yet
its bucket-key set (empty) differs from the union of the membership sets
(`existing_folders` still holds `"A"`), so the claimed invariant —
encoded by `specBucketInvariant` — fails on a reachable plan. -/
theorem C2_counterexample : Reachable c2Plan ∧ specBucketInvariant c2Plan = false :=
  ⟨Reachable.remove planA_existing "f1"
      (Reachable.add emptyPlan rA_existing Reachable.empty),
    by decide⟩

/-- C2 (amended): for every plan reachable from the empty plan by
`add_result`, `rename_folder`, `remove_file` and the interactive move
operations, every bucket holds a non-empty result sequence. (The other
half of the claimed invariant — bucket keys equal to the disjoint union
of `new_folders` and `existing_folders` — does not hold, see the
counterexample.) -/
theorem C2_amended (p : OrganizationPlan) (h : Reachable p) :
    p.folder_assignments.all (fun b => !(b.2.isEmpty)) = true := by
  induction h with
  | empty => rfl
  | add p r _ ih => exact add_result_nonempty p r ih
  | rename p o n _ ih => exact rename_folder_nonempty p o n ih
  | remove p fid _ ih => exact remove_file_nonempty p fid ih
  | move p idx destIdx _ ih =>
    rw [move_file_by_index]
    cases hg : (flattenFiles p).get? idx with
    | none => exact ih
    | some rf =>
      cases hk : (dictKeys p.folder_assignments).get? destIdx with
      | none => exact ih
      | some dest => exact move_file_result_nonempty p rf.1 dest ih
  | moveNew p idx nf _ ih =>
    rw [move_file_new_by_index]
    cases hg : (flattenFiles p).get? idx with
    | none => exact ih
    | some rf =>
      dsimp only
      by_cases hnf : nf.data.isEmpty = true
      · rw [if_pos hnf]
        exact ih
      · rw [if_neg hnf]
        exact move_file_new_nonempty p rf.1 nf ih

/-- C2, witness: the amended theorem applied to the concrete reachable
plan `planA_new`. -/
theorem C2_witness :
    planA_new.folder_assignments.all (fun b => !(b.2.isEmpty)) = true :=
  C2_amended planA_new (Reachable.add emptyPlan rA_new Reachable.empty)

/-! ## Claim C3 -/

/-- C3: evaluation of `rename_folder` at the failing inputs. On
`planA_new` (bucket `"A"`, `"A" ∈ new_folders`), renaming `"A"` to `"B"`
hits the nonexistent set method `removed` and raises `AttributeError`
after the bucket map has already been re-keyed — `new_folders` still
holds `"A"` — instead of succeeding and moving the membership. On
`planA_existing` (`"A" ∈ existing_folders`) the call returns `True` but
leaves both membership sets untouched: `existing_folders` still holds
`"A"` and nothing holds `"B"`. -/
theorem C3_bug_eval :
    (rename_folder planA_new "A" "B").1 = RenameOutcome.attrError ∧
    (rename_folder planA_new "A" "B").2.folder_assignments
      = [("B", [{ rA_new with suggested_folder := "B" }])] ∧
    (rename_folder planA_new "A" "B").2.new_folders = ["A"] ∧
    (rename_folder planA_existing "A" "B").1 = RenameOutcome.ok ∧
    (rename_folder planA_existing "A" "B").2.existing_folders = ["A"] ∧
    (rename_folder planA_existing "A" "B").2.new_folders = [] := by
  decide

/-! ## Claim C4 -/

/-- C4: every plan operation invoked with an invalid argument — renaming
a folder that is not a bucket key, removing an unknown file id, or an
out-of-range interactive selection for either move branch — reports
failure (boolean signal / no-op) and returns the plan exactly as it was:
no partial mutation is observable on these paths. -/
theorem C4_invalid_args_no_op :
    (∀ (p : OrganizationPlan) (old_name new_name : String),
      dictGet p.folder_assignments old_name = none →
      rename_folder p old_name new_name = (RenameOutcome.notFound, p)) ∧
    (∀ (p : OrganizationPlan) (fid : String),
      countFid p.folder_assignments fid = 0 →
      remove_file p fid = (false, p)) ∧
    (∀ (p : OrganizationPlan) (idx destIdx : Nat),
      (flattenFiles p).length ≤ idx →
      move_file_by_index p idx destIdx = p) ∧
    (∀ (p : OrganizationPlan) (idx destIdx : Nat),
      (dictKeys p.folder_assignments).length ≤ destIdx →
      move_file_by_index p idx destIdx = p) ∧
    (∀ (p : OrganizationPlan) (idx : Nat) (nf : String),
      (flattenFiles p).length ≤ idx →
      move_file_new_by_index p idx nf = p) := by
  refine ⟨?_, ?_, ?_, ?_, ?_⟩
  · intro p old_name new_name h
    unfold rename_folder
    rw [h]
  · intro p fid h
    exact remove_file_not_found p fid h
  · intro p idx destIdx h
    rw [move_file_by_index, List.get?_eq_none.mpr h]
  · intro p idx destIdx h
    rw [move_file_by_index]
    cases hg : (flattenFiles p).get? idx with
    | none => rfl
    | some rf => rw [List.get?_eq_none.mpr h]
  · intro p idx nf h
    rw [move_file_new_by_index, List.get?_eq_none.mpr h]

/-- C4, witness: the no-op theorem applied at concrete invalid inputs on
concrete plans. -/
theorem C4_witness :
    rename_folder emptyPlan "X" "Y" = (RenameOutcome.notFound, emptyPlan) ∧
    remove_file planA_new "zzz" = (false, planA_new) ∧
    move_file_by_index planA_new 5 0 = planA_new ∧
    move_file_by_index planA_new 0 7 = planA_new ∧
    move_file_new_by_index planA_new 5 "Q" = planA_new :=
  ⟨C4_invalid_args_no_op.1 emptyPlan "X" "Y" (by decide),
   C4_invalid_args_no_op.2.1 planA_new "zzz" (by decide),
   C4_invalid_args_no_op.2.2.1 planA_new 5 0 (by decide),
   C4_invalid_args_no_op.2.2.2.1 planA_new 0 7 (by decide),
   C4_invalid_args_no_op.2.2.2.2 planA_new 5 "Q" (by decide)⟩

/-! ## Claim C9 -/

/-- C9, counterexample: removing the sole file of bucket `"A"` from
`planA_existing` (where `"A" ∈ existing_folders`) deletes the bucket but
does **not** remove the folder's membership-set entry — `existing_folders`
still holds `"A"` — contrary to the claim's description of the first
call ("deleting its bucket and its folder's membership-set entry"). -/
theorem C9_counterexample :
    (remove_file planA_existing "f1").1 = true ∧
    (remove_file planA_existing "f1").2.folder_assignments = [] ∧
    (remove_file planA_existing "f1").2.existing_folders = ["A"] := by
  decide

/-- C9 (amended): for a file id occurring exactly once in the plan, the
first `remove_file` reports found (deleting an emptied bucket and
discarding its folder from `new_folders` only — any `existing_folders`
entry is retained, as `existing_folders` is never touched), and the
second call reports not-found and leaves the plan unchanged. -/
theorem C9_amended (p : OrganizationPlan) (fid : String)
    (h : countFid p.folder_assignments fid = 1) :
    (remove_file p fid).1 = true ∧
    (remove_file p fid).2.existing_folders = p.existing_folders ∧
    remove_file (remove_file p fid).2 fid = (false, (remove_file p fid).2) := by
  have h1 := remove_file_found p fid (by omega)
  refine ⟨h1.1, remove_file_existing_folders p fid, ?_⟩
  apply remove_file_not_found
  omega

/-- C9, witness: the amended theorem applied to `planA_existing` and id
`"f1"`, which occurs exactly once. -/
theorem C9_witness :
    countFid planA_existing.folder_assignments "f1" = 1 ∧
    ((remove_file planA_existing "f1").1 = true ∧
      (remove_file planA_existing "f1").2.existing_folders
        = planA_existing.existing_folders ∧
      remove_file (remove_file planA_existing "f1").2 "f1"
        = (false, (remove_file planA_existing "f1").2)) :=
  ⟨by decide, C9_amended planA_existing "f1" (by decide)⟩

end DriveOrganizer

/-! ## Claim C10 -/

/-- C10: every invocation of `mock_classifier.MockClassifier.classify_file`
raises `TypeError` and never returns a result, because every return path
constructs the module-local `ClassificationResult` with a `confidence`
keyword argument that the dataclass does not declare. The statement is
universally quantified over the regex-match semantics `reSearch`, so it
holds regardless of how `re.search` behaves. -/
theorem C10_always_type_error (reSearch : String → String → Bool)
    (file_name file_id : String) (folders : List String) (snip : Option String) :
    MockClassifierModule.classify_file reSearch file_name file_id folders snip
      = Except.error "TypeError: unexpected keyword argument confidence" := by
  unfold MockClassifierModule.classify_file
  dsimp only
  cases hkw : MockClassifierModule.KEYWORD_RULES.find?
      (fun kv => reSearch kv.1 (DriveOrganizer.pyLower file_name)) with
  | some kv =>
    dsimp only
    cases hex : folders.find?
        (fun existing =>
          DriveOrganizer.pyLower existing == DriveOrganizer.pyLower kv.2) with
    | some e => rfl
    | none => rfl
  | none =>
    dsimp only
    by_cases hu : DriveOrganizer.strIn "untitled" (DriveOrganizer.pyLower file_name) = true
    · rw [if_pos hu]
      rfl
    · rw [if_neg hu]
      rfl

namespace DriveOrganizer

/-! ## Claim C7 -/

/-- C7: `classify_multiple` returns exactly one `ClassificationResult`
per input file — output length equals input length — and the i-th result
carries the i-th file's id and name, so results are in input order. -/
theorem C7_one_result_per_file (files : List DriveFile) (existing_folders : List String) :
    (classify_multiple files existing_folders).length = files.length ∧
    (classify_multiple files existing_folders).map (fun r => (r.file_id, r.file_name))
      = files.map (fun f => (f.id, f.name)) := by
  have hmap : ∀ (fs : List DriveFile) (folders : List String),
      (classify_multiple_go fs folders).map (fun r => (r.file_id, r.file_name))
        = fs.map (fun f => (f.id, f.name)) := by
    intro fs
    induction fs with
    | nil => intro folders; rfl
    | cons f rest ih =>
      intro folders
      rw [classify_multiple_go, List.map_cons, List.map_cons, ih]
      have hid := classify_file_id_name f.name f.id folders none
      rw [hid.1, hid.2]
  constructor
  · have hlen := congrArg List.length (hmap files existing_folders)
    simpa using hlen
  · exact hmap files existing_folders

/-! ## Claim C6 -/

/-- Core induction for C6, phrased on the loop body with optional
indexing. -/
theorem go_later_not_new :
    ∀ (files : List DriveFile) (folders : List String) (i j : Nat)
      (ri rj : ClassificationResult), i < j →
      (classify_multiple_go files folders).get? i = some ri →
      (classify_multiple_go files folders).get? j = some rj →
      ri.is_new_folder = true →
      rj.suggested_folder = ri.suggested_folder →
      rj.is_new_folder = false := by
  intro files
  induction files with
  | nil =>
    intro folders i j ri rj _ hgi _ _ _
    rw [classify_multiple_go] at hgi
    simp at hgi
  | cons f rest ih =>
    intro folders i j ri rj hij hgi hgj hnew heq
    rw [classify_multiple_go] at hgi hgj
    cases j with
    | zero => omega
    | succ j2 =>
      rw [List.get?_cons_succ] at hgj
      cases i with
      | zero =>
        rw [List.get?_cons_zero] at hgi
        have hri : classify_file f.name f.id folders none = ri := Option.some.inj hgi
        have hFmem : ri.suggested_folder ∈
            nextFolders folders (classify_file f.name f.id folders none) := by
          rw [hri]
          exact suggested_mem_nextFolders folders ri hnew
        exact go_not_new_of_mem ri.suggested_folder rest _ hFmem rj
          (List.get?_mem hgj) heq
      | succ i2 =>
        rw [List.get?_cons_succ] at hgi
        exact ih _ i2 j2 ri rj (by omega) hgi hgj hnew heq

/-- C6: if file `i` of a batch is classified into a folder marked new,
then every later file `j > i` of the same batch whose classification
suggests the same folder is marked `is_new_folder = false`, because
`classify_multiple` appends each newly suggested folder to its working
folder list before classifying the next file. -/
theorem C6_later_files_not_new (files : List DriveFile) (folders : List String)
    (i j : Nat) (ri rj : ClassificationResult) (hij : i < j)
    (hgi : (classify_multiple files folders).get? i = some ri)
    (hgj : (classify_multiple files folders).get? j = some rj)
    (hnew : ri.is_new_folder = true)
    (heq : rj.suggested_folder = ri.suggested_folder) :
    rj.is_new_folder = false :=
  go_later_not_new files folders i j ri rj hij hgi hgj hnew heq

/-- C6, witness: in the batch `cBatch` against no known folders, file 1
creates `"Physics Files"` as a new folder and file 2, suggesting the same
folder, is classified with `is_new_folder = false`. -/
theorem C6_witness : cRes1.is_new_folder = false :=
  C6_later_files_not_new cBatch [] 0 1 cRes0 cRes1 (by decide) (by decide)
    (by decide) (by decide) (by decide)

/-! ## Claim C5 -/

/-- C5, counterexample: in `planAB`, `"B"` is a bucket key (so the claim
requires the moved result's `is_new_folder` to be recomputed to `false`)
and `"A" ∈ existing_folders`; but moving `f1` from `"A"` to `"B"` stores
it with `is_new_folder = true` (the code instead tests membership of the
destination in `new_folders`) and leaves `"A"` in `existing_folders`
rather than removing it from both membership sets. -/
theorem C5_counterexample :
    (dictKeys planAB.folder_assignments).contains "B" = true ∧
    (move_file_by_index planAB 0 1).folder_assignments
      = [("B", [rB_new, { rA_existing with suggested_folder := "B", is_new_folder := true }])] ∧
    (move_file_by_index planAB 0 1).existing_folders = ["A"] := by
  decide

/-- C5 (amended): moving the sole file of the first bucket to the second
bucket's folder equals `remove_file` followed by `add_result` of the
result re-labelled with the destination, where `is_new_folder` is set to
the destination's membership in the *post-removal* `new_folders` set (not
to whether the destination is a bucket key); the emptied source folder is
discarded from `new_folders` but retained in `existing_folders`. -/
theorem C5_amended (src dest : String) (f1 : ClassificationResult)
    (fsB : List ClassificationResult) (nf ef : List String) :
    move_file_by_index ⟨[(src, [f1]), (dest, fsB)], nf, ef⟩ 0 1 =
      OrganizationPlan.mk
        [(dest, fsB ++ [ClassificationResult.mk f1.file_id f1.file_name dest
            ((nf.filter (fun x => x != src)).contains dest) f1.confidence f1.reasoning])]
        (nf.filter (fun x => x != src))
        (if (nf.filter (fun x => x != src)).contains dest then ef
         else setAdd ef dest) := by
  by_cases hb : (nf.filter (fun x => x != src)).contains dest = true
  · have hb2 : dest ∈ nf ∧ ¬dest = src := by simpa using hb
    simp [move_file_by_index, flattenFiles, move_file_result, remove_file,
      removeAux, eraseFirstById, add_result, dictKeys, dictAppendAt, setAdd, hb, hb2]
  · have hb2 : ¬(dest ∈ nf ∧ ¬dest = src) := by simpa using hb
    simp [move_file_by_index, flattenFiles, move_file_result, remove_file,
      removeAux, eraseFirstById, add_result, dictKeys, dictAppendAt, setAdd, hb, hb2]

end DriveOrganizer
